import Mathlib

/-!
Shallow embedding of the persistence and aggregation layer of
`src/expense-tracker/exp_app.py` (SQLite-backed expense tracker).

The three SQLite tables are modelled as Lean lists kept in rowid
(insertion) order:
  * `expenses(id PK AUTOINCREMENT, amount REAL, category TEXT,
     description TEXT nullable, date DATE)` — a `List Expense` plus a
    `nextId` counter for the AUTOINCREMENT sequence (ids are never
    reused after deletion);
  * `budgets(category TEXT PK, budget_amount REAL)` — a
    `List (String × Rat)`;
  * `total_budget(id PK AUTOINCREMENT, budget_amount REAL)` — a
    `List Rat` of row values in rowid order.

REAL amounts are modelled as `Rat`; DATE values (stored as ISO strings,
compared lexicographically by SQLite, which on ISO dates coincides with
chronological order) are modelled as `Nat` ordinals.  Each Python
function of the store/aggregation layer becomes a pure Lean function on
this state.  `SELECT * FROM expenses ORDER BY date DESC` (used both by
the report view in `main` and by `export_expenses_to_csv`) is modelled
as a stable sort by descending date over the rowid-ordered table, which
is SQLite's observable behaviour for this plain full-table scan; the SQL
itself specifies no tie-break within equal dates.
-/

namespace ExpenseTracker

/-- One row of the `expenses` table of `exp_app.py`. -/
structure Expense where
  id : Nat
  amount : Rat
  category : String
  description : Option String
  date : Nat
deriving DecidableEq

/-- The persisted state: the three tables created by `init_database`,
plus the AUTOINCREMENT counter of the `expenses` table. -/
structure DB where
  expenses : List Expense
  nextId : Nat
  budgets : List (String × Rat)
  total_budget : List Rat
deriving DecidableEq

/-- The state right after `init_database` on a fresh file: all tables
empty, SQLite AUTOINCREMENT starting at 1. -/
def emptyDB : DB := ⟨[], 1, [], []⟩

/-- Embeds `add_expense` (exp_app.py lines 43-48): an unconditional
`INSERT INTO expenses (amount, category, description, date)`; the new
row receives the next AUTOINCREMENT id.  The Python function performs
no validation and returns nothing. -/
def add_expense (db : DB) (amount : Rat) (category : String)
    (description : Option String) (date : Nat) : DB :=
  { db with
    expenses := db.expenses ++
      [{ id := db.nextId, amount := amount, category := category,
         description := description, date := date }]
    nextId := db.nextId + 1 }

/-- Embeds `set_budget` (lines 51-56): `INSERT OR REPLACE INTO budgets`,
i.e. any existing row with the same category key is deleted and the new
row inserted.  No validation is performed. -/
def set_budget (db : DB) (category : String) (budget_amount : Rat) : DB :=
  { db with
    budgets := db.budgets.filter (fun p => p.1 != category)
      ++ [(category, budget_amount)] }

/-- Embeds `set_total_budget` (lines 59-65): `DELETE FROM total_budget`
followed by inserting the single new value, committed together. -/
def set_total_budget (db : DB) (budget_amount : Rat) : DB :=
  { db with total_budget := [budget_amount] }

/-- Embeds `get_total_budget` (lines 68-71): `SELECT budget_amount FROM
total_budget LIMIT 1`, returning the first row in rowid order, or 0 when
`fetchone` yields no row. -/
def get_total_budget (db : DB) : Rat :=
  db.total_budget.headD 0

/-- Embeds `get_total_expenses` (lines 74-76): `SELECT SUM(amount) FROM
expenses`; SQL `SUM` is NULL on an empty table and the Python `or 0`
turns that into 0. -/
def get_total_expenses (db : DB) : Rat :=
  match db.expenses with
  | [] => 0
  | es => (es.map (fun e => e.amount)).sum

/-- Embeds `get_expenses_by_category` (lines 79-85): `SELECT category,
SUM(amount) FROM expenses GROUP BY category`, returned as a Python dict.
Groups are formed by literal equality of the stored category strings;
the association list has one entry per distinct category occurring in
the table. -/
def get_expenses_by_category (db : DB) : List (String × Rat) :=
  ((db.expenses.map (fun e => e.category)).dedup).map
    (fun c => (c, ((db.expenses.filter (fun e => e.category == c)).map
      (fun e => e.amount)).sum))

/-- Embeds `get_budget` (lines 88-91): `SELECT budget_amount FROM
budgets WHERE category = ?`, returning 0 when no row matches. -/
def get_budget (db : DB) (category : String) : Rat :=
  match db.budgets.find? (fun p => p.1 == category) with
  | some p => p.2
  | none => 0

/-- Embeds `delete_expense` (lines 94-96): `DELETE FROM expenses WHERE
id = ?`. -/
def delete_expense (db : DB) (expense_id : Nat) : DB :=
  { db with expenses := db.expenses.filter (fun e => e.id != expense_id) }

/-- Embeds `delete_budget` (lines 99-101): `DELETE FROM budgets WHERE
category = ?`. -/
def delete_budget (db : DB) (category : String) : DB :=
  { db with budgets := db.budgets.filter (fun p => p.1 != category) }

/-- The comparison used by `ORDER BY date DESC`: `a` may precede `b`
when the date of `a` is at least the date of `b`. -/
def dateDesc (a b : Expense) : Prop := b.date ≤ a.date

instance : DecidableRel dateDesc := fun a b => Nat.decLe b.date a.date

instance : IsTotal Expense dateDesc := ⟨fun a b => Nat.le_total b.date a.date⟩

instance : IsTrans Expense dateDesc :=
  ⟨fun _ _ _ hab hbc => Nat.le_trans hbc hab⟩

/-- Embeds `SELECT * FROM expenses ORDER BY date DESC`, the query used
by both the Expense Report section of `main` and by
`export_expenses_to_csv` (lines 104-107): a stable sort by descending
date over the table in rowid order. -/
def list_expenses (db : DB) : List Expense :=
  db.expenses.insertionSort dateDesc

/-- Embeds the row sequence of `export_expenses_to_csv` (lines 104-107):
the tuples `(ID, Amount, Category, Description, Date)` in the order of
`list_expenses`. -/
def export_rows (db : DB) : List (Nat × Rat × String × Option String × Nat) :=
  (list_expenses db).map
    (fun e => (e.id, e.amount, e.category, e.description, e.date))

/-- Modelled from the spec: no single `budgetVariance` function exists
in `exp_app.py`; the Visualizations section of `main` (lines 236-240)
computes, for exactly the categories of `get_expenses_by_category`, the
budget via `get_budget` (0 when unset) and the actual spend, and the
spec defines `delta = budget - actual`.  This definition composes the
embedded source functions accordingly. -/
def budget_variance (db : DB) : List (String × Rat × Rat × Rat) :=
  (get_expenses_by_category db).map
    (fun p => (p.1, get_budget db p.1, p.2, get_budget db p.1 - p.2))

/-- Well-formedness of the AUTOINCREMENT counter: every id already
present in the `expenses` table is strictly below `nextId`.  This holds
for every state reachable from `emptyDB`. -/
def WF (db : DB) : Prop := ∀ e ∈ db.expenses, e.id < db.nextId

/-- A concrete state whose two expense rows share a date: ids 1 and 2,
both dated 10, inserted in that order. -/
def dbTie : DB :=
  ⟨[⟨1, 5, "Food", none, 10⟩, ⟨2, 7, "Rent", none, 10⟩], 3, [], []⟩

/-- The concrete scenario state of the spec: expenses 250 and 100 in
category Food (dates 20240101 and 20240102) and a Food budget of 300. -/
def dbScenario : DB :=
  set_budget
    (add_expense (add_expense emptyDB 250 "Food" none 20240101)
      100 "Food" none 20240102)
    "Food" 300

/-- A concrete state holding one category budget row, for the Rent
category. -/
def dbBudget : DB := ⟨[], 1, [("Rent", 100)], []⟩

/-- Helper: `find?` for a category key on a list whose matching rows
were filtered out and the fresh row appended finds exactly the fresh
row. -/
theorem find?_filter_ne_append {α : Type} (c : String) (a : α)
    (l : List (String × α)) :
    ((l.filter (fun p => p.1 != c)) ++ [(c, a)]).find?
      (fun p => p.1 == c) = some (c, a) := by
  induction l with
  | nil => simp
  | cons x xs ih =>
      by_cases hx : x.1 = c
      · simp [hx]
      · simp [List.filter_cons, hx]

/-- Claim C1, counterexample: `add_expense` called with amount 0 does
not fail and does not leave the ledger unchanged — it inserts a row
(the code performs no validation; the `amount > 0` check lives in the
Streamlit form, not in the store). -/
theorem c1_counterexample :
    ¬ ((add_expense emptyDB 0 "Food" (some "snack") 20240101).expenses
      = emptyDB.expenses) := by decide

/-- Claim C1, amended: `add_expense` performs no validation and returns
no identifier; for every input (including amount ≤ 0 or an empty
category) it appends exactly one row with the given fields and the next
AUTOINCREMENT id, which — whenever the id counter is well formed — is
strictly greater than every previously assigned id, and the counter
stays well formed. -/
theorem c1_add_inserts_row (db : DB) (a : Rat) (c : String)
    (desc : Option String) (d : Nat) (h : WF db) :
    (add_expense db a c desc d).expenses
      = db.expenses ++ [⟨db.nextId, a, c, desc, d⟩]
    ∧ (∀ e ∈ db.expenses, e.id < (Expense.mk db.nextId a c desc d).id)
    ∧ WF (add_expense db a c desc d) := by
  refine ⟨rfl, fun e he => h e he, fun e he => ?_⟩
  rcases List.mem_append.mp he with h1 | h1
  · exact Nat.lt_trans (h e h1) (Nat.lt_succ_self _)
  · rw [List.mem_singleton.mp h1]
    exact Nat.lt_succ_self _

/-- Claim C1, witness at a concrete state. -/
theorem c1_witness :
    (add_expense emptyDB 5 "Food" none 20240101).expenses
      = emptyDB.expenses ++ [⟨emptyDB.nextId, 5, "Food", none, 20240101⟩]
    ∧ WF (add_expense emptyDB 5 "Food" none 20240101) :=
  ⟨(c1_add_inserts_row emptyDB 5 "Food" none 20240101
      (fun e he => absurd he (List.not_mem_nil e))).1,
   (c1_add_inserts_row emptyDB 5 "Food" none 20240101
      (fun e he => absurd he (List.not_mem_nil e))).2.2⟩

/-- Claim C2: after `set_total_budget x`, `get_total_budget` returns
exactly `x`; after two consecutive calls the `total_budget` table is
exactly the one-row table holding the second argument, whatever the
table held before; and a single call always leaves exactly one row. -/
theorem c2_total_budget_singleton (db : DB) (x y : Rat) :
    get_total_budget (set_total_budget db x) = x
    ∧ (set_total_budget (set_total_budget db x) y).total_budget = [y]
    ∧ (set_total_budget db x).total_budget.length = 1 :=
  ⟨rfl, rfl, rfl⟩

/-- Helper: inserting a row dated `d` leaves the rows of date `d` with
the inserted row in front; every row the insertion walks past has a
strictly larger date, hence a date other than `d`. -/
theorem filter_orderedInsert_eq (d : Nat) (x : Expense) (hx : x.date = d)
    (l : List Expense) :
    (List.orderedInsert dateDesc x l).filter (fun e => e.date == d)
      = x :: l.filter (fun e => e.date == d) := by
  induction l with
  | nil => simp [hx]
  | cons y ys ih =>
      rw [List.orderedInsert]
      by_cases hr : dateDesc x y
      · rw [if_pos hr, List.filter_cons, List.filter_cons]
        simp [hx]
      · rw [if_neg hr, List.filter_cons, ih]
        have hy : ¬ (y.date = d) := fun hyd =>
          hr (le_of_eq (hyd.trans hx.symm))
        simp [List.filter_cons, hy]

/-- Helper: inserting a row dated differently from `d` leaves the rows
of date `d` untouched. -/
theorem filter_orderedInsert_ne (d : Nat) (x : Expense) (hx : ¬ x.date = d)
    (l : List Expense) :
    (List.orderedInsert dateDesc x l).filter (fun e => e.date == d)
      = l.filter (fun e => e.date == d) := by
  induction l with
  | nil => simp [hx]
  | cons y ys ih =>
      rw [List.orderedInsert]
      by_cases hr : dateDesc x y
      · rw [if_pos hr, List.filter_cons, List.filter_cons]
        simp [hx]
      · rw [if_neg hr, List.filter_cons, ih, List.filter_cons]

/-- Helper, the stability of the embedded `ORDER BY date DESC`: for any
date, the rows of that date appear in the query output exactly as they
stand in the table (rowid order). -/
theorem filter_insertionSort_date (d : Nat) (l : List Expense) :
    (l.insertionSort dateDesc).filter (fun e => e.date == d)
      = l.filter (fun e => e.date == d) := by
  induction l with
  | nil => rfl
  | cons x xs ih =>
      rw [List.insertionSort]
      by_cases hx : x.date = d
      · rw [filter_orderedInsert_eq d x hx, ih, List.filter_cons]
        simp [hx]
      · rw [filter_orderedInsert_ne d x hx, ih, List.filter_cons]
        simp [hx]

/-- Claim C3, counterexample: in the state `dbTie`, whose two rows share
a date and were inserted with ids 1 then 2, the report/export query does
not place the larger identifier first within the shared date — the
stable sort keeps rowid (insertion) order, the SQL having no tie-break
clause. -/
theorem c3_counterexample :
    ¬ ((list_expenses dbTie).Pairwise
        (fun a b => a.date = b.date → b.id < a.id)) := by decide

/-- Claim C3, amended: the rows of the report/export query are the
expense rows sorted newest date first (a permutation of the table,
pairwise non-increasing in date), `export_rows` carries exactly that
order, and the order is deterministic in the state; within every single
date the output rows are exactly the table's rows of that date in table
(rowid, ascending-identifier) order — a stable sort, with no
descending-identifier tie-break. -/
theorem c3_export_order (db : DB) :
    List.Sorted dateDesc (list_expenses db)
    ∧ List.Perm (list_expenses db) db.expenses
    ∧ (∀ d : Nat, (list_expenses db).filter (fun e => e.date == d)
        = db.expenses.filter (fun e => e.date == d))
    ∧ export_rows db = (list_expenses db).map
        (fun e => (e.id, e.amount, e.category, e.description, e.date)) :=
  ⟨List.sorted_insertionSort dateDesc db.expenses,
   List.perm_insertionSort dateDesc db.expenses,
   fun d => filter_insertionSort_date d db.expenses, rfl⟩

/-- Claim C4: `get_total_expenses` equals the sum of the amounts of the
rows returned by the report/export query, and is 0 (an actual numeric
zero, the SQL `SUM` NULL being replaced by `or 0`) when the table is
empty. -/
theorem c4_total_expenses_eq_sum (db : DB) :
    get_total_expenses db
      = ((list_expenses db).map (fun e => e.amount)).sum
    ∧ (db.expenses = [] → get_total_expenses db = 0) := by
  obtain ⟨es, n, b, t⟩ := db
  constructor
  · cases es with
    | nil => rfl
    | cons x xs =>
        exact (((List.perm_insertionSort dateDesc (x :: xs)).map
          (fun e => e.amount)).sum_eq).symm
  · intro h
    rw [show es = [] from h]
    rfl

/-- Claim C4, witness at the empty state. -/
theorem c4_witness :
    get_total_expenses emptyDB
      = ((list_expenses emptyDB).map (fun e => e.amount)).sum
    ∧ get_total_expenses emptyDB = 0 :=
  ⟨(c4_total_expenses_eq_sum emptyDB).1,
   (c4_total_expenses_eq_sum emptyDB).2 rfl⟩

/-- Claim C5: `get_expenses_by_category` holds the pair `(c, s)` exactly
when some expense row has the literal category string `c` and `s` is the
sum of the amounts of precisely the rows whose stored category equals
`c`; categories with no rows have no entry. -/
theorem c5_by_category_mem (db : DB) (c : String) (s : Rat) :
    (c, s) ∈ get_expenses_by_category db
      ↔ ((∃ e ∈ db.expenses, e.category = c)
        ∧ s = ((db.expenses.filter (fun e => e.category == c)).map
            (fun e => e.amount)).sum) := by
  unfold get_expenses_by_category
  rw [List.mem_map]
  constructor
  · rintro ⟨a, ha, heq⟩
    rw [Prod.mk.injEq] at heq
    obtain ⟨rfl, rfl⟩ := heq
    refine ⟨?_, rfl⟩
    simpa using List.mem_dedup.mp ha
  · rintro ⟨⟨e, he, hec⟩, rfl⟩
    refine ⟨c, ?_, rfl⟩
    rw [List.mem_dedup]
    exact List.mem_map.mpr ⟨e, he, hec⟩

/-- Claim C5, witness: in `dbTie` the Food category maps to the amount
of its single Food row. -/
theorem c5_witness :
    ("Food", (5 : Rat)) ∈ get_expenses_by_category dbTie :=
  (c5_by_category_mem dbTie "Food" 5).mpr
    ⟨⟨⟨1, 5, "Food", none, 10⟩, by simp [dbTie], rfl⟩, by
      rw [show (dbTie.expenses.filter (fun e => e.category == "Food")).map
          (fun e => e.amount) = [5] from rfl]
      simp⟩

/-- Claim C6: `delete_expense` run twice equals run once, the
report/export query afterwards contains no row with the deleted id, and
every row with a different id is untouched; no error path exists. -/
theorem c6_delete_idempotent (db : DB) (i : Nat) :
    delete_expense (delete_expense db i) i = delete_expense db i
    ∧ (∀ e ∈ list_expenses (delete_expense db i), e.id ≠ i)
    ∧ (∀ e, e.id ≠ i →
        (e ∈ (delete_expense db i).expenses ↔ e ∈ db.expenses)) := by
  refine ⟨?_, ?_, ?_⟩
  · obtain ⟨es, n, b, t⟩ := db
    simp [delete_expense, List.filter_filter]
  · intro e he
    have hmem : e ∈ (delete_expense db i).expenses :=
      (List.perm_insertionSort dateDesc
        (delete_expense db i).expenses).mem_iff.mp he
    simpa using List.of_mem_filter hmem
  · intro e hne
    constructor
    · exact fun h => List.mem_of_mem_filter h
    · intro h
      exact List.mem_filter.mpr ⟨h, by simpa using hne⟩

/-- Claim C6, witness: deleting id 1 from `dbTie` twice equals once, and
the surviving row with id 2 is untouched. -/
theorem c6_witness :
    delete_expense (delete_expense dbTie 1) 1 = delete_expense dbTie 1
    ∧ ((⟨2, 7, "Rent", none, 10⟩ : Expense)
          ∈ (delete_expense dbTie 1).expenses
        ↔ (⟨2, 7, "Rent", none, 10⟩ : Expense) ∈ dbTie.expenses) :=
  ⟨(c6_delete_idempotent dbTie 1).1,
   (c6_delete_idempotent dbTie 1).2.2 ⟨2, 7, "Rent", none, 10⟩
     (by decide)⟩

/-- Claim C7: `budget_variance` holds the tuple `(c, b, a, d)` exactly
when `(c, a)` is an entry of `get_expenses_by_category` (so its domain
is precisely the categories with at least one expense row), `b` is the
stored category budget (0 when unset, via `get_budget`), and
`d = b - a`. -/
theorem c7_budget_variance_mem (db : DB) (c : String) (b a d : Rat) :
    (c, b, a, d) ∈ budget_variance db
      ↔ ((c, a) ∈ get_expenses_by_category db
        ∧ b = get_budget db c ∧ d = get_budget db c - a) := by
  unfold budget_variance
  rw [List.mem_map]
  constructor
  · rintro ⟨⟨c0, a0⟩, hmem, heq⟩
    simp only [Prod.mk.injEq] at heq
    obtain ⟨rfl, rfl, rfl, rfl⟩ := heq
    exact ⟨hmem, rfl, rfl⟩
  · rintro ⟨hmem, rfl, rfl⟩
    exact ⟨(c, a), hmem, rfl⟩

/-- Claim C7, witness: in the spec scenario state (Food expenses 250 and
100, Food budget 300) the Food entry of `budget_variance` is
`(budget 300, actual 350, delta -50)`. -/
theorem c7_witness :
    ("Food", (300 : Rat), (350 : Rat), (-50 : Rat))
      ∈ budget_variance dbScenario :=
  (c7_budget_variance_mem dbScenario "Food" 300 350 (-50)).mpr
    ⟨by
      rw [show get_expenses_by_category dbScenario
          = [("Food", (250 : Rat) + (100 + 0))] from rfl]
      norm_num,
     by
      rw [show get_budget dbScenario "Food" = 300 from rfl],
     by
      rw [show get_budget dbScenario "Food" = 300 from rfl]
      norm_num⟩

/-- Claim C8, counterexample: `set_budget` with a negative amount does
not fail and does not leave the budgets table unchanged — the row is
upserted and the negative value is stored (the `min_value=0.0` guard
lives in the Streamlit form, not in the store). -/
theorem c8_counterexample :
    get_budget (set_budget emptyDB "Food" (-5)) "Food" = -5
    ∧ ¬ ((set_budget emptyDB "Food" (-5)).budgets = emptyDB.budgets) :=
  ⟨rfl, by decide⟩

/-- Claim C8, amended: `set_budget` performs no validation; for every
amount, negative included, it upserts: afterwards the budgets table
holds exactly one row for that category, carrying the given amount,
`get_budget` returns that amount, and the rows of every other category
are preserved exactly — the sublist of rows whose category differs from
the written one is unchanged. -/
theorem c8_set_budget_upsert (db : DB) (c : String) (a : Rat) :
    ((set_budget db c a).budgets.filter (fun p => p.1 == c)) = [(c, a)]
    ∧ get_budget (set_budget db c a) c = a
    ∧ ((set_budget db c a).budgets.filter (fun p => p.1 != c)
        = db.budgets.filter (fun p => p.1 != c)) := by
  refine ⟨?_, ?_, ?_⟩
  · show ((db.budgets.filter (fun p => p.1 != c)
        ++ [(c, a)]).filter (fun p => p.1 == c)) = [(c, a)]
    rw [List.filter_append]
    rw [show (db.budgets.filter (fun p => p.1 != c)).filter
        (fun p => p.1 == c) = [] from List.filter_eq_nil_iff.mpr
      (fun p hp => by simpa using List.of_mem_filter hp)]
    simp
  · show (match (db.budgets.filter (fun p => p.1 != c)
        ++ [(c, a)]).find? (fun p => p.1 == c) with
      | some p => p.2
      | none => 0) = a
    rw [find?_filter_ne_append]
  · show ((db.budgets.filter (fun p => p.1 != c)
        ++ [(c, a)]).filter (fun p => p.1 != c))
      = db.budgets.filter (fun p => p.1 != c)
    rw [List.filter_append, List.filter_filter]
    simp

/-- Claim C8, witness: upserting a Food budget of 300 onto a state that
already holds a Rent budget installs exactly one Food row, readable
back, and the non-Food sublist of the result still holds exactly the
prior Rent row. -/
theorem c8_witness :
    ((set_budget dbBudget "Food" 300).budgets.filter
      (fun p => p.1 == "Food")) = [("Food", 300)]
    ∧ get_budget (set_budget dbBudget "Food" 300) "Food" = 300
    ∧ ((set_budget dbBudget "Food" 300).budgets.filter
        (fun p => p.1 != "Food")
      = dbBudget.budgets.filter (fun p => p.1 != "Food")) :=
  ⟨(c8_set_budget_upsert dbBudget "Food" 300).1,
   (c8_set_budget_upsert dbBudget "Food" 300).2.1,
   (c8_set_budget_upsert dbBudget "Food" 300).2.2⟩

/-- Claim C9: `get_total_budget` returns 0 on an empty `total_budget`
table, and `get_budget` returns 0 when no budget row exists for the
category; neither raises an error. -/
theorem c9_absent_defaults_zero (db : DB) (c : String) :
    (db.total_budget = [] → get_total_budget db = 0)
    ∧ ((∀ p ∈ db.budgets, p.1 ≠ c) → get_budget db c = 0) := by
  constructor
  · intro h
    unfold get_total_budget
    rw [h]
    rfl
  · intro h
    unfold get_budget
    rw [List.find?_eq_none.mpr (fun p hp => by simpa using h p hp)]

/-- Claim C9, witness at the empty state. -/
theorem c9_witness :
    get_total_budget emptyDB = 0 ∧ get_budget emptyDB "Food" = 0 :=
  ⟨(c9_absent_defaults_zero emptyDB "Food").1 rfl,
   (c9_absent_defaults_zero emptyDB "Food").2
     (fun p hp => absurd hp (List.not_mem_nil p))⟩

/-- Claim C10: each mutating operation touches only its own table —
`add_expense` and `delete_expense` leave `budgets` and `total_budget`
unchanged, `set_budget` leaves `expenses` and `total_budget` unchanged,
and `set_total_budget` leaves `expenses` and `budgets` unchanged. -/
theorem c10_frame (db : DB) (a : Rat) (c : String) (desc : Option String)
    (d : Nat) (i : Nat) (x : Rat) :
    ((add_expense db a c desc d).budgets = db.budgets
      ∧ (add_expense db a c desc d).total_budget = db.total_budget)
    ∧ ((delete_expense db i).budgets = db.budgets
      ∧ (delete_expense db i).total_budget = db.total_budget)
    ∧ ((set_budget db c x).expenses = db.expenses
      ∧ (set_budget db c x).total_budget = db.total_budget)
    ∧ ((set_total_budget db x).expenses = db.expenses
      ∧ (set_total_budget db x).budgets = db.budgets) :=
  ⟨⟨rfl, rfl⟩, ⟨rfl, rfl⟩, ⟨rfl, rfl⟩, ⟨rfl, rfl⟩⟩

end ExpenseTracker
